import Mathlib

/-
Verification of lib/python/qmk/keymap.py: the template resolver, the keymap
renderer and the build orchestrator. Python functions are embedded shallowly:
the filesystem is a finite map, Python exceptions are values of PyExc, and
fallible code returns Except PyExc.
-/

/-- A Python exception value: the class name and the traceback text that
format_exc would produce for it. -/
structure PyExc where
  name : String
  trace : String
  deriving Repr, DecidableEq

/-- Python str.join: concatenate the pieces with the separator between
consecutive pieces. -/
def pyJoin (sep : String) : List String → String
  | [] => ""
  | [s] => s
  | s :: rest => s ++ sep ++ pyJoin sep rest

/-- Python str.replace on character lists, driven by explicit fuel so that
the recursion is structural; any fuel of at least the length of the subject
gives the left-to-right non-overlapping replacement semantics. -/
def pyReplaceAux (pat rep : List Char) : Nat → List Char → List Char
  | _, [] => []
  | 0, s => s
  | fuel + 1, c :: rest =>
    if !pat.isEmpty && pat.isPrefixOf (c :: rest) then
      rep ++ pyReplaceAux pat rep fuel ((c :: rest).drop pat.length)
    else
      c :: pyReplaceAux pat rep fuel rest

/-- Python str.replace, used for the placeholder substitution. -/
def pyReplace (s pat rep : String) : String :=
  ⟨pyReplaceAux pat.data rep.data s.data.length s.data⟩

/-- Whether pat occurs as a contiguous substring of s. -/
def hasSub (pat : List Char) : List Char → Bool
  | [] => pat.isEmpty
  | c :: rest => pat.isPrefixOf (c :: rest) || hasSub pat rest

/-- Number of left-to-right non-overlapping occurrences of a pattern,
driven by the same fuel discipline as pyReplaceAux. -/
def countSubAux (pat : List Char) : Nat → List Char → Nat
  | _, [] => 0
  | 0, _ => 0
  | fuel + 1, c :: rest =>
    if !pat.isEmpty && pat.isPrefixOf (c :: rest) then
      countSubAux pat fuel ((c :: rest).drop pat.length) + 1
    else
      countSubAux pat fuel rest

/-- Number of occurrences of pat in s (Python str.count). -/
def countSub (s pat : String) : Nat :=
  countSubAux pat.data s.data.length s.data

/-- Finite model of the filesystem: the set of existing directory paths and
a map from file paths to their textual contents. -/
structure FS where
  dirs : List String
  files : List (String × String)
  deriving Repr, DecidableEq

/-- Lookup in the file map. -/
def lookupFile : List (String × String) → String → Option String
  | [], _ => none
  | (p, c) :: rest, q => if p = q then some c else lookupFile rest q

/-- os.path.exists: a path exists when it is a known directory or a file. -/
def FS.pathExists (fs : FS) (p : String) : Bool :=
  fs.dirs.contains p || (lookupFile fs.files p).isSome

/-- Opening and reading an existing path: yields the file contents, and
raises when the path exists only as a directory. -/
def FS.readFile (fs : FS) (p : String) : Except PyExc String :=
  match lookupFile fs.files p with
  | some c => .ok c
  | none => .error ⟨"IsADirectoryError", "Traceback: IsADirectoryError: " ++ p⟩

/-- os.makedirs: record the directory as existing. -/
def FS.mkdirs (fs : FS) (p : String) : FS :=
  ⟨p :: fs.dirs, fs.files⟩

/-- Update or insert one file binding. -/
def setFile : List (String × String) → String → String → List (String × String)
  | [], p, c => [(p, c)]
  | (q, d) :: rest, p, c => if q = p then (p, c) :: rest else (q, d) :: setFile rest p c

/-- Writing a file: update or insert its contents. -/
def FS.writeFile (fs : FS) (p c : String) : FS :=
  ⟨fs.dirs, setFile fs.files p c⟩

/-- DEFAULT_KEYMAP_C (lines 12-23 of the source): the keymap.c template used
when a keyboard does not have its own. -/
def DEFAULT_KEYMAP_C : String :=
  "#include QMK_KEYBOARD_H\n\n/* THIS FILE WAS GENERATED!\n *\n * This file was generated by qmk-compile-json. You may or may not want to\n * edit it directly.\n */\n\nconst uint16_t PROGMEM keymaps[][MATRIX_ROWS][MATRIX_COLS] = \x7b\n__KEYMAP_GOES_HERE__\n\x7d;\n"

/-- template(keyboard), lines 26-42: return the contents of
keyboards/<keyboard>/templates/keymap.c when that path exists, and
DEFAULT_KEYMAP_C otherwise. -/
def template (keyboard : String) (fs : FS) : Except PyExc String :=
  let template_name := "keyboards/" ++ keyboard ++ "/templates/keymap.c"
  if fs.pathExists template_name then
    fs.readFile template_name
  else
    .ok DEFAULT_KEYMAP_C

/-- Calling the one-parameter function template with a list of positional
arguments, as Python resolves a call: any argument count other than one
raises TypeError before the body runs. -/
def templateCall (args : List String) (fs : FS) : Except PyExc String :=
  match args with
  | [keyboard] => template keyboard fs
  | _ =>
    .error ⟨"TypeError",
      "Traceback: TypeError: template takes 1 positional argument but "
        ++ Nat.repr args.length ++ " were given"⟩

/-- One line of the layer table (line 63 of the source): tab, bracketed
index, layout macro name, comma-space joined key codes. -/
def layerLine (layout : String) (n : Nat) (layer : List String) : String :=
  "\t[" ++ Nat.repr n ++ "] = " ++ layout ++ "(" ++ pyJoin ", " layer ++ ")"

/-- The statement layer_txt[-1] = layer_txt[-1] + "," (line 61): append a
comma to the last accumulated line. The loop only runs it on a non-empty
accumulator; on an empty list Python would raise IndexError instead. -/
def commaLast : List String → List String
  | [] => []
  | [s] => [s ++ ","]
  | s :: rest => s :: commaLast rest

/-- The loop of generate (lines 58-64): build layer_txt in input order,
appending a comma to the previous line before every layer after the first. -/
def layerLoop (layout : String) : Nat → List String → List (List String) → List String
  | _, acc, [] => acc
  | n, acc, layer :: rest =>
    let acc1 := if n ≠ 0 then commaLast acc else acc
    layerLoop layout (n + 1) (acc1 ++ [layerLine layout n layer]) rest

/-- The joined layer block of generate (line 65): newline-join of layer_txt
built by the loop. -/
def layerBlock (layout : String) (layers : List (List String)) : String :=
  pyJoin "\n" (layerLoop layout 0 [] layers)

/-- generate(keyboard, layout, layers), lines 45-68: build the layer block,
call template — with TWO positional arguments, exactly as line 66 does — and
substitute the placeholder marker in the result. -/
def generate (keyboard layout : String) (layers : List (List String)) (fs : FS) : Except PyExc String :=
  let keymap := layerBlock layout layers
  match templateCall [keyboard, keymap] fs with
  | .error e => .error e
  | .ok keymap_c => .ok (pyReplace keymap_c "__KEYMAP_GOES_HERE__" keymap)

/-- write(keyboard, keymap, layout, layers), lines 71-100: generate the
keymap.c text, create the keymap directory when absent, write the file and
return its name. The qmk.path.keymap collaborator is the pathKeymap
parameter. -/
def write (pathKeymap : String → String) (keyboard keymap layout : String) (layers : List (List String)) (fs : FS) : Except PyExc (String × FS) :=
  match generate keyboard layout layers fs with
  | .error e => .error e
  | .ok keymap_c =>
    let keymap_dir := pathKeymap keyboard ++ "/" ++ keymap
    let keymap_file := keymap_dir ++ "/keymap.c"
    let fs1 := if fs.pathExists keymap_dir then fs else fs.mkdirs keymap_dir
    .ok (keymap_file, fs1.writeFile keymap_file keymap_c)

/-- Modelled from the spec: the Keymap Renderer render(keyboard, layout,
layers) of section 4.2. The source function generate instead passes two
arguments to the one-parameter template and so raises TypeError; this
definition follows the words of the spec: resolve the template for the
keyboard, then replace every occurrence of the placeholder marker with the
rendered layer block. -/
def renderSpec (keyboard layout : String) (layers : List (List String)) (fs : FS) : Except PyExc String :=
  match template keyboard fs with
  | .error e => .error e
  | .ok keymap_c => .ok (pyReplace keymap_c "__KEYMAP_GOES_HERE__" (layerBlock layout layers))

/-- The claimed shape of the layer lines: one layerLine per layer, indices
counting up from n in input order. -/
def layerLines (layout : String) : Nat → List (List String) → List String
  | _, [] => []
  | n, layer :: rest => layerLine layout n layer :: layerLines layout (n + 1) rest

/-- The claimed shape of layer_txt after the loop: every line except the
last carries a trailing comma. -/
def commaSep : List String → List String
  | [] => []
  | [s] => [s]
  | s :: rest => (s ++ ",") :: commaSep rest

/-- A Python value as stored in the result dict of compile_firmware. -/
inductive Value where
  | vstr : String → Value
  | vint : Int → Value
  | vlist : List String → Value
  | vnone : Value
  deriving Repr, DecidableEq

/-- Python truthiness of a stored value, as tested by line 144. -/
def Value.falsy : Value → Bool
  | .vstr s => s == ""
  | .vint n => n == 0
  | .vlist l => l.isEmpty
  | .vnone => true

/-- The result record: a Python dict with string keys in insertion order. -/
abbrev Dict := List (String × Value)

/-- Python dict read access. -/
def dget : Dict → String → Option Value
  | [], _ => none
  | (k, v) :: rest, q => if k = q then some v else dget rest q

/-- Python dict assignment: overwrite in place when the key is present,
append otherwise. -/
def dset : Dict → String → Value → Dict
  | [], k, v => [(k, v)]
  | (k1, v1) :: rest, k, v =>
    if k1 = k then (k, v) :: rest else (k1, v1) :: dset rest k v

/-- Modelled from the spec: the outcome of the external build invocation of
section 6 — exit code, combined output, the binary artifact reference and
its filename. -/
structure BuildOutcome where
  returncode : Int
  output : String
  firmware : Value
  firmware_filename : String
  deriving Repr, DecidableEq

/-- Modelled from the spec: the external collaborators of section 6 that
compile_firmware references but the source does not define
(get_current_job, checkout_qmk, write_keymap, and the build tool invoked
inside store_firmware_binary). Every fallible collaborator reports an
Except outcome together with the filesystem as it stands afterwards. -/
structure Env where
  get_current_job : Except PyExc Value
  checkout_qmk : FS → Except PyExc Unit × FS
  write_keymap : Value → Value → List (List String) → FS → Except PyExc Unit × FS
  build : FS → Except PyExc BuildOutcome × FS

/-- Modelled from the spec: store_firmware_binary(result) is not defined in
the source; per section 4.3 step 4 it invokes the external build command and
writes its return code, combined output and, on success, the firmware
binary and its filename into the result record. storeDict is that update of
the record. -/
def storeDict (o : BuildOutcome) (r : Dict) : Dict :=
  dset (dset (dset (dset r "returncode" (.vint o.returncode))
    "output" (.vstr o.output)) "firmware" o.firmware)
    "firmware_filename" (.vstr o.firmware_filename)

/-- Modelled from the spec, continued: store_firmware_binary runs the build
and, on success, applies the four field updates of storeDict to the result
record; on a raise the record is untouched. -/
def store_firmware_binary (build : FS → Except PyExc BuildOutcome × FS)
    (r : Dict) (fs : FS) : Except PyExc Unit × Dict × FS :=
  match build fs with
  | (.error e, fs1) => (.error e, r, fs1)
  | (.ok o, fs1) => (.ok (), storeDict o r, fs1)

/-- Modelled from the spec: write_keymap is not defined in the source; per
section 4.3 step 3 it renders the keymap source (section 4.2 — the renderer
needs the layout macro name, which the call at line 136 does not pass, so
the layout is an explicit parameter here) and persists it: create the
keymap directory under the keymaps base when absent and write keymap.c
inside it. -/
def write_keymap_spec (base keyboard keymap layout : String)
    (layers : List (List String)) (fs : FS) : Except PyExc Unit × FS :=
  match renderSpec keyboard layout layers fs with
  | .error e => (.error e, fs)
  | .ok txt =>
    let dir := base ++ "/" ++ keymap
    let fs1 := if fs.pathExists dir then fs else fs.mkdirs dir
    (.ok (), fs1.writeFile (dir ++ "/keymap.c") txt)

/-- Control flow of the compile_firmware body: an explicit return from
inside the try block, normal fall-through, or a raised exception. -/
inductive PyFlow where
  | done : Dict → PyFlow
  | fell : PyFlow
  | raised : PyExc → PyFlow
  deriving Repr, DecidableEq

/-- The record carried by a completed flow. -/
def PyFlow.record : PyFlow → Dict
  | .done d => d
  | _ => []

/-- Whether the flow is a returned record. -/
def PyFlow.isDone : PyFlow → Bool
  | .done _ => true
  | _ => false

/-- The record returned on an unknown keyboard (line 125). -/
def unknownKeyboardResult : Dict :=
  [("returncode", .vint (-1)), ("command", .vstr ""),
   ("output", .vstr "Unknown keyboard!"), ("firmware", .vnone)]

/-- The record returned on a keymap directory collision (line 133). -/
def collisionResult (pathname : String) : Dict :=
  [("returncode", .vint (-1)), ("command", .vstr ""),
   ("output", .vstr ("Keymap name collision! " ++ pathname ++ " already exists!")),
   ("firmware", .vnone)]

/-- The result record constructed at the top of compile_firmware
(lines 106-115). -/
def initResult (keyboard keymap layout : String) : Dict :=
  [("keyboard", .vstr keyboard),
   ("layout", .vstr layout),
   ("keymap", .vstr keymap),
   ("command", .vlist ["make", "COLOR=false", keyboard ++ ":" ++ keymap]),
   ("returncode", .vint (-2)),
   ("output", .vstr ""),
   ("firmware", .vnone),
   ("firmware_filename", .vstr "")]

/-- The keyboard directory checked at line 123. -/
def keyboardDirPath (keyboard : String) : String :=
  "qmk_firmware/keyboards/" ++ keyboard

/-- The keyboard-scoped candidate keymap directory (line 128). -/
def keymapPath1 (keyboard keymap : String) : String :=
  "qmk_firmware/keyboards/" ++ keyboard ++ "/keymaps/" ++ keymap

/-- The parent-scoped sibling candidate keymap directory (line 129). -/
def keymapPath2 (keyboard keymap : String) : String :=
  "qmk_firmware/keyboards/" ++ keyboard ++ "/../keymaps/" ++ keymap

/-- The try block of compile_firmware (lines 117-137), with the result dict
and the filesystem threaded explicitly and every raise surfaced as
PyFlow.raised together with the state at the raise point. -/
def compile_try_rest (env : Env) (keyboard keymap : String) (layers : List (List String))
    (result1 : Dict) (fs : FS) : PyFlow × Dict × FS :=
  match env.checkout_qmk fs with
  | (.error e, fs1) => (.raised e, result1, fs1)
  | (.ok _, fs1) =>
    if !fs1.pathExists (keyboardDirPath keyboard) then
      (.done unknownKeyboardResult, result1, fs1)
    else if fs1.pathExists (keymapPath1 keyboard keymap) then
      (.done (collisionResult (keymapPath1 keyboard keymap)), result1, fs1)
    else if fs1.pathExists (keymapPath2 keyboard keymap) then
      (.done (collisionResult (keymapPath2 keyboard keymap)), result1, fs1)
    else
      match dget result1 "keyboard", dget result1 "keymap" with
      | some vkb, some vkm =>
        (match env.write_keymap vkb vkm layers fs1 with
         | (.error e, fs2) => (.raised e, result1, fs2)
         | (.ok _, fs2) =>
           match store_firmware_binary env.build result1 fs2 with
           | (.error e, r2, fs3) => (.raised e, r2, fs3)
           | (.ok _, r2, fs3) => (.fell, r2, fs3))
      | _, _ => (.raised ⟨"KeyError", "Traceback: KeyError"⟩, result1, fs1)

/-- The try block entry: bind the job identifier into the record (line 119)
and continue; a raise from get_current_job surfaces immediately. -/
def compile_try (env : Env) (keyboard keymap : String) (layers : List (List String))
    (result : Dict) (fs : FS) : PyFlow × Dict × FS :=
  match env.get_current_job with
  | .error e => (.raised e, result, fs)
  | .ok jobId => compile_try_rest env keyboard keymap layers (dset result "id" jobId) fs

/-- The except block of compile_firmware (lines 139-145): set return code
-3, record the exception kind and the captured trace, and when the output
is still falsy replace it by the trace. -/
def exceptDict (e : PyExc) (result : Dict) : Dict :=
  dset (dset (dset result "returncode" (.vint (-3)))
    "exception" (.vstr e.name)) "stacktrace" (.vstr e.trace)

/-- The except block of compile_firmware (lines 139-145), continued: after
the three assignments of exceptDict, when the output entry is still falsy it
is replaced by the stored stacktrace; a missing key would itself raise. -/
def exceptBlock (e : PyExc) (result : Dict) (fs : FS) : PyFlow × Dict × FS :=
  match dget (exceptDict e result) "output" with
  | none => (.raised ⟨"KeyError", "Traceback: KeyError: output"⟩, exceptDict e result, fs)
  | some v =>
    if v.falsy then
      match dget (exceptDict e result) "stacktrace" with
      | none => (.raised ⟨"KeyError", "Traceback: KeyError: stacktrace"⟩, exceptDict e result, fs)
      | some t => (.fell, dset (exceptDict e result) "output" t, fs)
    else (.fell, exceptDict e result, fs)

/-- compile_firmware(keyboard, keymap, layout, layers), lines 103-147:
construct the pending record, run the try block, convert any raised
exception through the except block, and return the record together with the
final filesystem. -/
def compile_firmware (env : Env) (keyboard keymap layout : String)
    (layers : List (List String)) (fs : FS) : PyFlow × FS :=
  match compile_try env keyboard keymap layers (initResult keyboard keymap layout) fs with
  | (.done d, _, fs1) => (.done d, fs1)
  | (.fell, r, fs1) => (.done r, fs1)
  | (.raised e, r, fs1) =>
    match exceptBlock e r fs1 with
    | (.fell, r2, fs2) => (.done r2, fs2)
    | (.done d, _, fs2) => (.done d, fs2)
    | (.raised e2, _, fs2) => (.raised e2, fs2)

/-- An empty filesystem, for witnesses. -/
def fsEmpty : FS := ⟨[], []⟩

/-- A filesystem where the keyboard directory and the keyboard-scoped keymap
directory both exist, for the collision witness. -/
def fsCollision : FS :=
  ⟨["qmk_firmware/keyboards/kb", "qmk_firmware/keyboards/kb/keymaps/km"], []⟩

/-- A filesystem where the keyboard directory exists and the keyboard has a
small custom template, for the success witness. -/
def fsSuccess : FS :=
  ⟨["qmk_firmware/keyboards/kb"],
   [("keyboards/kb/templates/keymap.c", "A __KEYMAP_GOES_HERE__ B")]⟩

/-- A collaborator environment where every collaborator succeeds. -/
def envBase : Env where
  get_current_job := .ok (.vstr "7")
  checkout_qmk := fun f => (.ok (), f)
  write_keymap := fun _ _ _ f => (.ok (), f)
  build := fun f => (.ok ⟨0, "built", .vstr "BIN", "kb_km.hex"⟩, f)

/-- A collaborator environment whose checkout step raises. -/
def envRaise : Env where
  get_current_job := .ok (.vstr "7")
  checkout_qmk := fun f => (.error ⟨"OSError", "Traceback: OSError: disk full"⟩, f)
  write_keymap := fun _ _ _ f => (.ok (), f)
  build := fun f => (.ok ⟨0, "", .vnone, ""⟩, f)

/-- A collaborator environment whose write_keymap behaves exactly as the
spec-modelled persist step for the layout LAYOUT. -/
def envSuccess : Env where
  get_current_job := .ok (.vstr "7")
  checkout_qmk := fun f => (.ok (), f)
  write_keymap := fun vkb vkm lyrs f =>
    match vkb, vkm with
    | .vstr a, .vstr b =>
      write_keymap_spec "qmk_firmware/keyboards/kb/keymaps" a b "LAYOUT" lyrs f
    | _, _ => (.error ⟨"TypeError", "Traceback: TypeError"⟩, f)
  build := fun f => (.ok ⟨0, "built", .vstr "BIN", "kb_km.hex"⟩, f)

theorem string_append_assoc (a b c : String) : a ++ b ++ c = a ++ (b ++ c) := by
  rcases a with ⟨la⟩; rcases b with ⟨lb⟩; rcases c with ⟨lc⟩
  show String.mk (la ++ lb ++ lc) = String.mk (la ++ (lb ++ lc))
  rw [List.append_assoc]

theorem commaSep_cons (s t : String) (l : List String) :
    commaSep (s :: t :: l) = (s ++ ",") :: commaSep (t :: l) := rfl

theorem commaSep_ne_nil_cons (t : String) (l : List String) :
    ∃ u m, commaSep (t :: l) = u :: m := by
  cases l with
  | nil => exact ⟨t, [], rfl⟩
  | cons a l2 => exact ⟨t ++ ",", commaSep (a :: l2), rfl⟩

theorem pyJoin_commaSep : ∀ xs : List String, pyJoin "\n" (commaSep xs) = pyJoin ",\n" xs
  | [] => rfl
  | [s] => rfl
  | s :: t :: l => by
    have ih := pyJoin_commaSep (t :: l)
    obtain ⟨u, m, hm⟩ := commaSep_ne_nil_cons t l
    have hstep : (s ++ ",") ++ "\n" = s ++ ",\n" := by
      rw [string_append_assoc]
      congr 1
    calc pyJoin "\n" (commaSep (s :: t :: l))
        = pyJoin "\n" ((s ++ ",") :: u :: m) := by rw [commaSep_cons, hm]
      _ = (s ++ ",") ++ "\n" ++ pyJoin "\n" (u :: m) := rfl
      _ = (s ++ ",") ++ "\n" ++ pyJoin "\n" (commaSep (t :: l)) := by rw [hm]
      _ = s ++ ",\n" ++ pyJoin ",\n" (t :: l) := by rw [ih, hstep]
      _ = pyJoin ",\n" (s :: t :: l) := rfl

theorem commaLast_commaSep : ∀ (xs : List String), xs ≠ [] → ∀ y : String,
    commaLast (commaSep xs) ++ [y] = commaSep (xs ++ [y])
  | [], h, _ => absurd rfl h
  | [_], _, _ => rfl
  | s :: t :: l, _, y => by
    have ih := commaLast_commaSep (t :: l) (by simp) y
    obtain ⟨u, m, hm⟩ := commaSep_ne_nil_cons t l
    rw [commaSep_cons, hm]
    show (s ++ ",") :: (commaLast (u :: m) ++ [y]) = commaSep (s :: t :: l ++ [y])
    rw [← hm, ih]
    rfl

theorem layerLoop_commaSep (layout : String) : ∀ (layers : List (List String))
    (pre : List String), pre ≠ [] → ∀ n : Nat, n ≠ 0 →
    layerLoop layout n (commaSep pre) layers = commaSep (pre ++ layerLines layout n layers)
  | [], pre, _, n, _ => by simp [layerLoop, layerLines]
  | layer :: rest, pre, hp, n, hn => by
    have ih := layerLoop_commaSep layout rest (pre ++ [layerLine layout n layer])
      (by simp) (n + 1) (by simp)
    show layerLoop layout (n + 1)
        ((if n ≠ 0 then commaLast (commaSep pre) else commaSep pre) ++ [layerLine layout n layer]) rest
      = commaSep (pre ++ layerLines layout n (layer :: rest))
    rw [if_pos hn, commaLast_commaSep pre hp, ih]
    simp [layerLines, List.append_assoc]

theorem layerBlock_eq_pyJoin (layout : String) (layers : List (List String)) :
    layerBlock layout layers = pyJoin ",\n" (layerLines layout 0 layers) := by
  cases layers with
  | nil => rfl
  | cons layer rest =>
    show pyJoin "\n" (layerLoop layout 0 [] (layer :: rest)) = _
    have h1 : layerLoop layout 0 [] (layer :: rest)
        = layerLoop layout 1 (commaSep [layerLine layout 0 layer]) rest := rfl
    rw [h1, layerLoop_commaSep layout rest [layerLine layout 0 layer] (by simp) 1 (by simp),
      pyJoin_commaSep]
    rfl

set_option maxRecDepth 10000 in
/-- Claim C2: for every layout macro name and every list of layers, the layer
block built by generate emits for each layer at 0-based index i the line
tab, bracketed i, layout macro, parenthesised comma-space-joined tokens, and
joins the lines with a comma before each newline, so every layer line except
the last ends with a trailing comma; in particular the two-layer
LAYOUT_ortho example renders with no trailing comma after the final layer. -/
theorem generate_layer_block (layout : String) (layers : List (List String)) :
    layerBlock layout layers = pyJoin ",\n" (layerLines layout 0 layers)
    ∧ layerBlock "LAYOUT_ortho" [["KC_A", "KC_B"], ["KC_C", "KC_D"]]
      = "\t[0] = LAYOUT_ortho(KC_A, KC_B),\n\t[1] = LAYOUT_ortho(KC_C, KC_D)" :=
  ⟨layerBlock_eq_pyJoin layout layers, by decide⟩

set_option maxRecDepth 40000 in
/-- Claim C3: template returns the full contents of
keyboards/<keyboard>/templates/keymap.c when that file exists, and otherwise
returns exactly the built-in DEFAULT_KEYMAP_C, which carries the
generated-file disclaimer comment and a single placeholder marker. -/
theorem template_resolves (keyboard : String) (fs : FS) (c : String) :
    (lookupFile fs.files ("keyboards/" ++ keyboard ++ "/templates/keymap.c") = some c →
      template keyboard fs = .ok c)
    ∧ (fs.pathExists ("keyboards/" ++ keyboard ++ "/templates/keymap.c") = false →
      template keyboard fs = .ok DEFAULT_KEYMAP_C)
    ∧ countSub DEFAULT_KEYMAP_C "__KEYMAP_GOES_HERE__" = 1
    ∧ hasSub "THIS FILE WAS GENERATED!".data DEFAULT_KEYMAP_C.data = true := by
  refine ⟨?_, ?_, by decide, by decide⟩
  · intro h
    have hex : fs.pathExists ("keyboards/" ++ keyboard ++ "/templates/keymap.c") = true := by
      unfold FS.pathExists
      rw [h]
      simp
    unfold template
    simp only [hex, if_true]
    unfold FS.readFile
    rw [h]
  · intro h
    unfold template
    simp only [h]
    rfl

/-- Witness for template_resolves at a keyboard with an override template
and at one without. -/
theorem template_resolves_witness :
    template "planck" ⟨[], [("keyboards/planck/templates/keymap.c", "CUSTOM TEXT")]⟩
      = .ok "CUSTOM TEXT"
    ∧ template "planck" ⟨[], []⟩ = .ok DEFAULT_KEYMAP_C :=
  ⟨(template_resolves "planck"
      ⟨[], [("keyboards/planck/templates/keymap.c", "CUSTOM TEXT")]⟩ "CUSTOM TEXT").1 rfl,
   (template_resolves "planck" ⟨[], []⟩ "").2.1 rfl⟩

/-- Claim C9: generate always raises TypeError — it calls template with two
positional arguments although template accepts exactly one — and write,
which calls generate, therefore never returns normally either. -/
theorem generate_always_raises_TypeError (pathKeymap : String → String)
    (keyboard keymap layout : String) (layers : List (List String)) (fs : FS) :
    (∃ e, generate keyboard layout layers fs = .error e ∧ e.name = "TypeError")
    ∧ ∃ e, write pathKeymap keyboard keymap layout layers fs = .error e ∧ e.name = "TypeError" :=
  ⟨⟨_, rfl, rfl⟩, ⟨_, rfl, rfl⟩⟩

/-- Claim C7, behaviour of the code at a failing input: with a custom
template that does not contain the placeholder marker, generate does not
return the template unchanged — it raises TypeError, because line 66 passes
two arguments to the one-parameter template. -/
theorem generate_marker_free_template_raises :
    generate "kb" "LAYOUT" []
        ⟨[], [("keyboards/kb/templates/keymap.c", "no marker here")]⟩
      = .error ⟨"TypeError",
          "Traceback: TypeError: template takes 1 positional argument but 2 were given"⟩ := by
  rfl

theorem pyReplaceAux_no_occurrence (pat rep : List Char) :
    ∀ (fuel : Nat) (s : List Char), hasSub pat s = false → pyReplaceAux pat rep fuel s = s := by
  intro fuel
  induction fuel with
  | zero =>
    intro s _
    cases s <;> rfl
  | succ n ih =>
    intro s hs
    cases s with
    | nil => rfl
    | cons c rest =>
      unfold hasSub at hs
      simp only [Bool.or_eq_false_iff] at hs
      unfold pyReplaceAux
      rw [hs.1, Bool.and_false, if_neg (by simp), ih rest hs.2]

/-- Support for the intent behind claim C7: the renderer as the spec words
it (renderSpec) does return a marker-free template unchanged. -/
theorem renderSpec_marker_free_unchanged (keyboard layout : String)
    (layers : List (List String)) (fs : FS) (t : String)
    (h : template keyboard fs = .ok t)
    (hm : hasSub "__KEYMAP_GOES_HERE__".data t.data = false) :
    renderSpec keyboard layout layers fs = .ok t := by
  have hp : pyReplace t "__KEYMAP_GOES_HERE__" (layerBlock layout layers) = t := by
    unfold pyReplace
    rw [pyReplaceAux_no_occurrence _ _ _ _ hm]
  unfold renderSpec
  rw [h]
  show Except.ok (pyReplace t "__KEYMAP_GOES_HERE__" (layerBlock layout layers)) = Except.ok t
  rw [hp]

theorem dget_dset (d : Dict) (k q : String) (v : Value) :
    dget (dset d k v) q = if k = q then some v else dget d q := by
  induction d with
  | nil =>
    unfold dset dget
    by_cases h : k = q <;> simp [h, dget]
  | cons p rest ih =>
    obtain ⟨k1, v1⟩ := p
    unfold dset
    by_cases h1 : k1 = k
    · subst h1
      unfold dget
      simp only [if_pos rfl]
      by_cases h2 : k1 = q <;> simp [h2, dget]
    · simp only [if_neg h1]
      unfold dget
      by_cases h2 : k1 = q
      · subst h2
        have : ¬k = k1 := fun hh => h1 hh.symm
        simp [this]
      · simp [h2, ih]

theorem dget_dset_self (d : Dict) (k : String) (v : Value) :
    dget (dset d k v) k = some v := by
  rw [dget_dset, if_pos rfl]

theorem dget_dset_ne (d : Dict) (k q : String) (v : Value) (h : k ≠ q) :
    dget (dset d k v) q = dget d q := by
  rw [dget_dset, if_neg h]

theorem lookupFile_setFile_self (l : List (String × String)) (p c : String) :
    lookupFile (setFile l p c) p = some c := by
  induction l with
  | nil => simp [setFile, lookupFile]
  | cons q rest ih =>
    obtain ⟨q1, d1⟩ := q
    unfold setFile
    by_cases h : q1 = p
    · simp [h, lookupFile]
    · simp [h, lookupFile, ih]

theorem compile_try_job_error (env : Env) (kb km : String) (layers : List (List String))
    (r : Dict) (fs : FS) (e : PyExc)
    (hj : env.get_current_job = .error e) :
    compile_try env kb km layers r fs = (.raised e, r, fs) := by
  unfold compile_try
  rw [hj]

theorem compile_try_job_ok (env : Env) (kb km : String) (layers : List (List String))
    (r : Dict) (fs : FS) (j : Value)
    (hj : env.get_current_job = .ok j) :
    compile_try env kb km layers r fs
      = compile_try_rest env kb km layers (dset r "id" j) fs := by
  unfold compile_try
  rw [hj]

theorem compile_try_rest_checkout_error (env : Env) (kb km : String)
    (layers : List (List String)) (r1 : Dict) (fs fs1 : FS) (e : PyExc)
    (hc : env.checkout_qmk fs = (.error e, fs1)) :
    compile_try_rest env kb km layers r1 fs = (.raised e, r1, fs1) := by
  unfold compile_try_rest
  rw [hc]

theorem compile_try_rest_unknown (env : Env) (kb km : String)
    (layers : List (List String)) (r1 : Dict) (fs fs1 : FS)
    (hc : env.checkout_qmk fs = (.ok (), fs1))
    (hk : fs1.pathExists (keyboardDirPath kb) = false) :
    compile_try_rest env kb km layers r1 fs = (.done unknownKeyboardResult, r1, fs1) := by
  unfold compile_try_rest
  rw [hc]
  simp [hk]

theorem compile_try_rest_collision1 (env : Env) (kb km : String)
    (layers : List (List String)) (r1 : Dict) (fs fs1 : FS)
    (hc : env.checkout_qmk fs = (.ok (), fs1))
    (hk : fs1.pathExists (keyboardDirPath kb) = true)
    (h1 : fs1.pathExists (keymapPath1 kb km) = true) :
    compile_try_rest env kb km layers r1 fs
      = (.done (collisionResult (keymapPath1 kb km)), r1, fs1) := by
  unfold compile_try_rest
  rw [hc]
  simp [hk, h1]

theorem compile_try_rest_collision2 (env : Env) (kb km : String)
    (layers : List (List String)) (r1 : Dict) (fs fs1 : FS)
    (hc : env.checkout_qmk fs = (.ok (), fs1))
    (hk : fs1.pathExists (keyboardDirPath kb) = true)
    (h1 : fs1.pathExists (keymapPath1 kb km) = false)
    (h2 : fs1.pathExists (keymapPath2 kb km) = true) :
    compile_try_rest env kb km layers r1 fs
      = (.done (collisionResult (keymapPath2 kb km)), r1, fs1) := by
  unfold compile_try_rest
  rw [hc]
  simp [hk, h1, h2]

theorem compile_try_rest_write_error (env : Env) (kb km : String)
    (layers : List (List String)) (r1 : Dict) (fs fs1 fs2 : FS) (vkb vkm : Value) (e : PyExc)
    (hc : env.checkout_qmk fs = (.ok (), fs1))
    (hk : fs1.pathExists (keyboardDirPath kb) = true)
    (h1 : fs1.pathExists (keymapPath1 kb km) = false)
    (h2 : fs1.pathExists (keymapPath2 kb km) = false)
    (hkb : dget r1 "keyboard" = some vkb)
    (hkm : dget r1 "keymap" = some vkm)
    (hw : env.write_keymap vkb vkm layers fs1 = (.error e, fs2)) :
    compile_try_rest env kb km layers r1 fs = (.raised e, r1, fs2) := by
  unfold compile_try_rest
  rw [hc]
  simp [hk, h1, h2, hkb, hkm, hw]

theorem compile_try_rest_build_error (env : Env) (kb km : String)
    (layers : List (List String)) (r1 : Dict) (fs fs1 fs2 fs3 : FS) (vkb vkm : Value) (e : PyExc)
    (hc : env.checkout_qmk fs = (.ok (), fs1))
    (hk : fs1.pathExists (keyboardDirPath kb) = true)
    (h1 : fs1.pathExists (keymapPath1 kb km) = false)
    (h2 : fs1.pathExists (keymapPath2 kb km) = false)
    (hkb : dget r1 "keyboard" = some vkb)
    (hkm : dget r1 "keymap" = some vkm)
    (hw : env.write_keymap vkb vkm layers fs1 = (.ok (), fs2))
    (hb : env.build fs2 = (.error e, fs3)) :
    compile_try_rest env kb km layers r1 fs = (.raised e, r1, fs3) := by
  unfold compile_try_rest
  rw [hc]
  simp [hk, h1, h2, hkb, hkm, hw, store_firmware_binary, hb]

theorem compile_try_rest_success (env : Env) (kb km : String)
    (layers : List (List String)) (r1 : Dict) (fs fs1 fs2 fs3 : FS) (vkb vkm : Value) (o : BuildOutcome)
    (hc : env.checkout_qmk fs = (.ok (), fs1))
    (hk : fs1.pathExists (keyboardDirPath kb) = true)
    (h1 : fs1.pathExists (keymapPath1 kb km) = false)
    (h2 : fs1.pathExists (keymapPath2 kb km) = false)
    (hkb : dget r1 "keyboard" = some vkb)
    (hkm : dget r1 "keymap" = some vkm)
    (hw : env.write_keymap vkb vkm layers fs1 = (.ok (), fs2))
    (hb : env.build fs2 = (.ok o, fs3)) :
    compile_try_rest env kb km layers r1 fs = (.fell, storeDict o r1, fs3) := by
  unfold compile_try_rest
  rw [hc]
  simp [hk, h1, h2, hkb, hkm, hw, store_firmware_binary, hb]

theorem compile_firmware_of_done (env : Env) (kb km layout : String)
    (layers : List (List String)) (fs : FS) (d r : Dict) (fs1 : FS)
    (h : compile_try env kb km layers (initResult kb km layout) fs = (.done d, r, fs1)) :
    compile_firmware env kb km layout layers fs = (.done d, fs1) := by
  unfold compile_firmware
  rw [h]

theorem compile_firmware_of_fell (env : Env) (kb km layout : String)
    (layers : List (List String)) (fs : FS) (r : Dict) (fs1 : FS)
    (h : compile_try env kb km layers (initResult kb km layout) fs = (.fell, r, fs1)) :
    compile_firmware env kb km layout layers fs = (.done r, fs1) := by
  unfold compile_firmware
  rw [h]

theorem exceptBlock_spec (e : PyExc) (r : Dict) (fs : FS) (v : Value)
    (h : dget r "output" = some v) :
    ∃ r2, exceptBlock e r fs = (.fell, r2, fs)
      ∧ dget r2 "returncode" = some (.vint (-3))
      ∧ dget r2 "exception" = some (.vstr e.name)
      ∧ dget r2 "stacktrace" = some (.vstr e.trace)
      ∧ (v.falsy = true → dget r2 "output" = some (.vstr e.trace))
      ∧ (v.falsy = false → dget r2 "output" = some v) := by
  have hout : dget (exceptDict e r) "output" = some v := by
    unfold exceptDict
    rw [dget_dset_ne _ _ _ _ (by decide), dget_dset_ne _ _ _ _ (by decide),
      dget_dset_ne _ _ _ _ (by decide)]
    exact h
  have hst : dget (exceptDict e r) "stacktrace" = some (.vstr e.trace) := by
    unfold exceptDict
    exact dget_dset_self _ _ _
  have hrc : dget (exceptDict e r) "returncode" = some (.vint (-3)) := by
    unfold exceptDict
    rw [dget_dset_ne _ _ _ _ (by decide), dget_dset_ne _ _ _ _ (by decide)]
    exact dget_dset_self _ _ _
  have hexc : dget (exceptDict e r) "exception" = some (.vstr e.name) := by
    unfold exceptDict
    rw [dget_dset_ne _ _ _ _ (by decide)]
    exact dget_dset_self _ _ _
  cases hfal : v.falsy with
  | true =>
    refine ⟨dset (exceptDict e r) "output" (.vstr e.trace), ?_, ?_, ?_, ?_, ?_, ?_⟩
    · unfold exceptBlock
      simp [hout, hst, hfal]
    · rw [dget_dset_ne _ _ _ _ (by decide)]
      exact hrc
    · rw [dget_dset_ne _ _ _ _ (by decide)]
      exact hexc
    · rw [dget_dset_ne _ _ _ _ (by decide)]
      exact hst
    · intro _
      exact dget_dset_self _ _ _
    · intro hco
      exact absurd hco (by decide)
  | false =>
    refine ⟨exceptDict e r, ?_, hrc, hexc, hst, ?_, ?_⟩
    · unfold exceptBlock
      simp [hout, hfal]
    · intro hco
      exact absurd hco (by decide)
    · intro _
      exact hout

theorem compile_try_raised_output (env : Env) (kb km : String) (layers : List (List String))
    (r : Dict) (fs : FS) (e : PyExc) (r2 : Dict) (fs1 : FS) (v : Value)
    (h0 : dget r "output" = some v)
    (h : compile_try env kb km layers r fs = (.raised e, r2, fs1)) :
    ∃ v2, dget r2 "output" = some v2 := by
  have h1 : dget (dset r "id" (match env.get_current_job with | .ok j => j | _ => .vnone)) "output" = some v := by
    rw [dget_dset_ne _ _ _ _ (by decide)]
    exact h0
  unfold compile_try at h
  cases hj : env.get_current_job with
  | error e1 =>
    simp only [hj, Prod.mk.injEq] at h
    obtain ⟨-, hr2, -⟩ := h
    subst hr2
    exact ⟨v, h0⟩
  | ok j =>
    simp only [hj] at h h1
    unfold compile_try_rest at h
    cases hc : env.checkout_qmk fs with
    | mk res fs' =>
      cases res with
      | error e1 =>
        simp only [hc, Prod.mk.injEq] at h
        obtain ⟨-, hr2, -⟩ := h
        subst hr2
        exact ⟨v, h1⟩
      | ok u =>
        simp only [hc] at h
        by_cases hk : fs'.pathExists (keyboardDirPath kb)
        · simp only [hk, Bool.not_true, Bool.false_eq_true, if_false] at h
          by_cases hp1 : fs'.pathExists (keymapPath1 kb km)
          · simp only [hp1, if_true] at h
            cases h
          · simp only [hp1, Bool.false_eq_true, if_false] at h
            by_cases hp2 : fs'.pathExists (keymapPath2 kb km)
            · simp only [hp2, if_true] at h
              cases h
            · simp only [hp2, Bool.false_eq_true, if_false] at h
              cases hkb : dget (dset r "id" j) "keyboard" with
              | none =>
                simp only [hkb, Prod.mk.injEq] at h
                obtain ⟨-, hr2, -⟩ := h
                subst hr2
                exact ⟨v, h1⟩
              | some vkb =>
                cases hkm : dget (dset r "id" j) "keymap" with
                | none =>
                  simp only [hkb, hkm, Prod.mk.injEq] at h
                  obtain ⟨-, hr2, -⟩ := h
                  subst hr2
                  exact ⟨v, h1⟩
                | some vkm =>
                  simp only [hkb, hkm] at h
                  cases hw : env.write_keymap vkb vkm layers fs' with
                  | mk wres fs2 =>
                    cases wres with
                    | error e2 =>
                      simp only [hw, Prod.mk.injEq] at h
                      obtain ⟨-, hr2, -⟩ := h
                      subst hr2
                      exact ⟨v, h1⟩
                    | ok u2 =>
                      simp only [hw, store_firmware_binary] at h
                      cases hb : env.build fs2 with
                      | mk bres fs3 =>
                        cases bres with
                        | error e3 =>
                          simp only [hb, Prod.mk.injEq] at h
                          obtain ⟨-, hr2, -⟩ := h
                          subst hr2
                          exact ⟨v, h1⟩
                        | ok o =>
                          simp only [hb] at h
                          cases h
        · simp only [hk, Bool.not_false, if_true] at h
          cases h

theorem dget_initResult_output (kb km layout : String) :
    dget (initResult kb km layout) "output" = some (.vstr "") := rfl

theorem dget_init_id_keyboard (kb km layout : String) (j : Value) :
    dget (dset (initResult kb km layout) "id" j) "keyboard" = some (.vstr kb) := by
  rw [dget_dset_ne _ _ _ _ (by decide)]
  rfl

theorem dget_init_id_keymap (kb km layout : String) (j : Value) :
    dget (dset (initResult kb km layout) "id" j) "keymap" = some (.vstr km) := by
  rw [dget_dset_ne _ _ _ _ (by decide)]
  rfl

/-- Claim C1: compile_firmware never raises or propagates an exception to
its caller: for every collaborator environment, filesystem and input it
returns a record (the flow is PyFlow.done, never PyFlow.raised) — every
exception raised inside the try block is captured by the except block into
the returned record. -/
theorem compile_firmware_total (env : Env) (keyboard keymap layout : String)
    (layers : List (List String)) (fs : FS) :
    ∃ d fs1, compile_firmware env keyboard keymap layout layers fs = (.done d, fs1) := by
  rcases hct : compile_try env keyboard keymap layers (initResult keyboard keymap layout) fs
    with ⟨flow, r2, fs1⟩
  cases flow with
  | done d => exact ⟨d, fs1, compile_firmware_of_done _ _ _ _ _ _ _ _ _ hct⟩
  | fell => exact ⟨r2, fs1, compile_firmware_of_fell _ _ _ _ _ _ _ _ hct⟩
  | raised e =>
    obtain ⟨v2, hv2⟩ := compile_try_raised_output env keyboard keymap layers _ fs e r2 fs1
      (.vstr "") (dget_initResult_output keyboard keymap layout) hct
    obtain ⟨rE, hE, -, -, -, -, -⟩ := exceptBlock_spec e r2 fs1 v2 hv2
    refine ⟨rE, fs1, ?_⟩
    unfold compile_firmware
    simp only [hct, hE]

/-- Claim C4: when the keyboard directory does not exist in the tree after
checkout, compile_firmware returns the unknown-keyboard record — return
code -1, empty-string command, output exactly "Unknown keyboard!", firmware
unset — and leaves the filesystem exactly as checkout left it. -/
theorem compile_firmware_unknown_keyboard (env : Env) (keyboard keymap layout : String)
    (layers : List (List String)) (fs fs1 : FS) (j : Value)
    (hj : env.get_current_job = .ok j)
    (hc : env.checkout_qmk fs = (.ok (), fs1))
    (hk : fs1.pathExists (keyboardDirPath keyboard) = false) :
    compile_firmware env keyboard keymap layout layers fs
      = (.done unknownKeyboardResult, fs1) := by
  apply compile_firmware_of_done
  rw [compile_try_job_ok _ _ _ _ _ _ _ hj]
  exact compile_try_rest_unknown _ _ _ _ _ _ _ hc hk

/-- Witness for compile_firmware_unknown_keyboard on an empty tree. -/
theorem compile_firmware_unknown_keyboard_witness :
    compile_firmware envBase "kb" "km" "LAYOUT" [] fsEmpty
      = (.done unknownKeyboardResult, fsEmpty) :=
  compile_firmware_unknown_keyboard envBase "kb" "km" "LAYOUT" [] fsEmpty fsEmpty
    (.vstr "7") rfl rfl rfl

/-- Claim C5: when either candidate keymap directory already exists,
compile_firmware returns the collision record naming that path — checked in
order keyboard-scoped first, then parent-scoped — with return code -1, and
leaves the filesystem exactly as checkout left it. -/
theorem compile_firmware_keymap_collision (env : Env) (keyboard keymap layout : String)
    (layers : List (List String)) (fs fs1 : FS) (j : Value)
    (hj : env.get_current_job = .ok j)
    (hc : env.checkout_qmk fs = (.ok (), fs1))
    (hk : fs1.pathExists (keyboardDirPath keyboard) = true) :
    (fs1.pathExists (keymapPath1 keyboard keymap) = true →
      compile_firmware env keyboard keymap layout layers fs
        = (.done (collisionResult (keymapPath1 keyboard keymap)), fs1))
    ∧ (fs1.pathExists (keymapPath1 keyboard keymap) = false →
       fs1.pathExists (keymapPath2 keyboard keymap) = true →
      compile_firmware env keyboard keymap layout layers fs
        = (.done (collisionResult (keymapPath2 keyboard keymap)), fs1)) := by
  constructor
  · intro h1
    apply compile_firmware_of_done
    rw [compile_try_job_ok _ _ _ _ _ _ _ hj]
    exact compile_try_rest_collision1 _ _ _ _ _ _ _ hc hk h1
  · intro h1 h2
    apply compile_firmware_of_done
    rw [compile_try_job_ok _ _ _ _ _ _ _ hj]
    exact compile_try_rest_collision2 _ _ _ _ _ _ _ hc hk h1 h2

/-- Witness for compile_firmware_keymap_collision: the keyboard-scoped
keymap directory exists. -/
theorem compile_firmware_keymap_collision_witness :
    compile_firmware envBase "kb" "km" "LAYOUT" [] fsCollision
      = (.done (collisionResult (keymapPath1 "kb" "km")), fsCollision) :=
  (compile_firmware_keymap_collision envBase "kb" "km" "LAYOUT" [] fsCollision fsCollision
    (.vstr "7") rfl rfl rfl).1 rfl

/-- Claim C6: whenever the try block raises an exception, compile_firmware
returns a record with return code -3, the exception class name recorded as
the exception label, the captured trace recorded as the stacktrace, and —
when the output at the raise point was still falsy — output set to that
trace (otherwise output keeps its value). -/
theorem compile_firmware_exception_capture (env : Env) (keyboard keymap layout : String)
    (layers : List (List String)) (fs : FS) (e : PyExc) (r : Dict) (fs1 : FS)
    (h : compile_try env keyboard keymap layers (initResult keyboard keymap layout) fs
      = (.raised e, r, fs1)) :
    (compile_firmware env keyboard keymap layout layers fs).1.isDone = true
    ∧ dget (compile_firmware env keyboard keymap layout layers fs).1.record "returncode"
        = some (.vint (-3))
    ∧ dget (compile_firmware env keyboard keymap layout layers fs).1.record "exception"
        = some (.vstr e.name)
    ∧ dget (compile_firmware env keyboard keymap layout layers fs).1.record "stacktrace"
        = some (.vstr e.trace)
    ∧ (∀ v, dget r "output" = some v → v.falsy = true →
        dget (compile_firmware env keyboard keymap layout layers fs).1.record "output"
          = some (.vstr e.trace))
    ∧ (∀ v, dget r "output" = some v → v.falsy = false →
        dget (compile_firmware env keyboard keymap layout layers fs).1.record "output"
          = some v) := by
  obtain ⟨v2, hv2⟩ := compile_try_raised_output env keyboard keymap layers _ fs e r fs1
    (.vstr "") (dget_initResult_output keyboard keymap layout) h
  obtain ⟨rE, hE, hrc, hexc, hst, hT, hF⟩ := exceptBlock_spec e r fs1 v2 hv2
  have hcf : compile_firmware env keyboard keymap layout layers fs = (.done rE, fs1) := by
    unfold compile_firmware
    simp only [h, hE]
  rw [hcf]
  refine ⟨rfl, hrc, hexc, hst, ?_, ?_⟩
  · intro v hv hfal
    have hv2v : v2 = v := Option.some.inj (hv2.symm.trans hv)
    subst hv2v
    exact hT hfal
  · intro v hv hfal
    have hv2v : v2 = v := Option.some.inj (hv2.symm.trans hv)
    subst hv2v
    exact hF hfal

/-- Witness for compile_firmware_exception_capture: the checkout
collaborator raises OSError while output is still empty. -/
theorem compile_firmware_exception_capture_witness :
    (compile_firmware envRaise "kb" "km" "LAYOUT" [] fsEmpty).1.isDone = true
    ∧ dget (compile_firmware envRaise "kb" "km" "LAYOUT" [] fsEmpty).1.record "returncode"
        = some (.vint (-3))
    ∧ dget (compile_firmware envRaise "kb" "km" "LAYOUT" [] fsEmpty).1.record "exception"
        = some (.vstr "OSError")
    ∧ dget (compile_firmware envRaise "kb" "km" "LAYOUT" [] fsEmpty).1.record "stacktrace"
        = some (.vstr "Traceback: OSError: disk full")
    ∧ dget (compile_firmware envRaise "kb" "km" "LAYOUT" [] fsEmpty).1.record "output"
        = some (.vstr "Traceback: OSError: disk full") := by
  have hall := compile_firmware_exception_capture envRaise "kb" "km" "LAYOUT" [] fsEmpty
    ⟨"OSError", "Traceback: OSError: disk full"⟩
    (dset (initResult "kb" "km" "LAYOUT") "id" (.vstr "7")) fsEmpty rfl
  exact ⟨hall.1, hall.2.1, hall.2.2.1, hall.2.2.2.1,
    hall.2.2.2.2.1 (.vstr "") rfl rfl⟩

/-- Claim C10: on either precondition failure, the returned record is the
freshly built four-entry dict: its keys are exactly returncode, command,
output and firmware in that order; keyboard, keymap, layout,
firmware_filename and id are absent; and command is the empty string, not
an argument list. -/
theorem compile_firmware_precondition_shape (env : Env) (keyboard keymap layout : String)
    (layers : List (List String)) (fs fs1 : FS) (j : Value)
    (hj : env.get_current_job = .ok j)
    (hc : env.checkout_qmk fs = (.ok (), fs1))
    (hfail : fs1.pathExists (keyboardDirPath keyboard) = false
      ∨ (fs1.pathExists (keyboardDirPath keyboard) = true
         ∧ (fs1.pathExists (keymapPath1 keyboard keymap) = true
            ∨ (fs1.pathExists (keymapPath1 keyboard keymap) = false
               ∧ fs1.pathExists (keymapPath2 keyboard keymap) = true)))) :
    ((compile_firmware env keyboard keymap layout layers fs).1.record).map Prod.fst
        = ["returncode", "command", "output", "firmware"]
    ∧ dget (compile_firmware env keyboard keymap layout layers fs).1.record "keyboard" = none
    ∧ dget (compile_firmware env keyboard keymap layout layers fs).1.record "keymap" = none
    ∧ dget (compile_firmware env keyboard keymap layout layers fs).1.record "layout" = none
    ∧ dget (compile_firmware env keyboard keymap layout layers fs).1.record "firmware_filename" = none
    ∧ dget (compile_firmware env keyboard keymap layout layers fs).1.record "id" = none
    ∧ dget (compile_firmware env keyboard keymap layout layers fs).1.record "command"
        = some (.vstr "") := by
  rcases hfail with hk | ⟨hk, h1 | ⟨h1, h2⟩⟩
  · have hcf : compile_firmware env keyboard keymap layout layers fs
        = (.done unknownKeyboardResult, fs1) := by
      apply compile_firmware_of_done
      rw [compile_try_job_ok _ _ _ _ _ _ _ hj]
      exact compile_try_rest_unknown _ _ _ _ _ _ _ hc hk
    rw [hcf]
    exact ⟨rfl, rfl, rfl, rfl, rfl, rfl, rfl⟩
  · have hcf : compile_firmware env keyboard keymap layout layers fs
        = (.done (collisionResult (keymapPath1 keyboard keymap)), fs1) := by
      apply compile_firmware_of_done
      rw [compile_try_job_ok _ _ _ _ _ _ _ hj]
      exact compile_try_rest_collision1 _ _ _ _ _ _ _ hc hk h1
    rw [hcf]
    exact ⟨rfl, rfl, rfl, rfl, rfl, rfl, rfl⟩
  · have hcf : compile_firmware env keyboard keymap layout layers fs
        = (.done (collisionResult (keymapPath2 keyboard keymap)), fs1) := by
      apply compile_firmware_of_done
      rw [compile_try_job_ok _ _ _ _ _ _ _ hj]
      exact compile_try_rest_collision2 _ _ _ _ _ _ _ hc hk h1 h2
    rw [hcf]
    exact ⟨rfl, rfl, rfl, rfl, rfl, rfl, rfl⟩

/-- Witness for compile_firmware_precondition_shape on the unknown-keyboard
path. -/
theorem compile_firmware_precondition_shape_witness :
    ((compile_firmware envBase "kb" "km" "LAYOUT" [] fsEmpty).1.record).map Prod.fst
        = ["returncode", "command", "output", "firmware"]
    ∧ dget (compile_firmware envBase "kb" "km" "LAYOUT" [] fsEmpty).1.record "keyboard" = none
    ∧ dget (compile_firmware envBase "kb" "km" "LAYOUT" [] fsEmpty).1.record "keymap" = none
    ∧ dget (compile_firmware envBase "kb" "km" "LAYOUT" [] fsEmpty).1.record "layout" = none
    ∧ dget (compile_firmware envBase "kb" "km" "LAYOUT" [] fsEmpty).1.record "firmware_filename" = none
    ∧ dget (compile_firmware envBase "kb" "km" "LAYOUT" [] fsEmpty).1.record "id" = none
    ∧ dget (compile_firmware envBase "kb" "km" "LAYOUT" [] fsEmpty).1.record "command"
        = some (.vstr "") :=
  compile_firmware_precondition_shape envBase "kb" "km" "LAYOUT" [] fsEmpty fsEmpty
    (.vstr "7") rfl rfl (Or.inl rfl)

/-- Claim C8: on a successful run — keyboard directory present, no keymap
collision, persist and build collaborators behaving as the spec models them
— the returned record still carries the command list
make, COLOR=false, keyboard:keymap, and keymap.c exists on disk under the
keymaps base containing exactly the rendered source text. -/
theorem compile_firmware_success_build (env : Env) (keyboard keymap layout base txt : String)
    (layers : List (List String)) (fs fs1 : FS) (j : Value) (o : BuildOutcome)
    (hj : env.get_current_job = .ok j)
    (hc : env.checkout_qmk fs = (.ok (), fs1))
    (hk : fs1.pathExists (keyboardDirPath keyboard) = true)
    (h1 : fs1.pathExists (keymapPath1 keyboard keymap) = false)
    (h2 : fs1.pathExists (keymapPath2 keyboard keymap) = false)
    (hw : env.write_keymap (.vstr keyboard) (.vstr keymap) layers fs1
      = write_keymap_spec base keyboard keymap layout layers fs1)
    (hr : renderSpec keyboard layout layers fs1 = .ok txt)
    (hb : env.build (write_keymap_spec base keyboard keymap layout layers fs1).2
      = (.ok o, (write_keymap_spec base keyboard keymap layout layers fs1).2)) :
    (compile_firmware env keyboard keymap layout layers fs).1.isDone = true
    ∧ dget (compile_firmware env keyboard keymap layout layers fs).1.record "command"
        = some (.vlist ["make", "COLOR=false", keyboard ++ ":" ++ keymap])
    ∧ lookupFile (compile_firmware env keyboard keymap layout layers fs).2.files
        (base ++ "/" ++ keymap ++ "/keymap.c") = some txt := by
  have hws : write_keymap_spec base keyboard keymap layout layers fs1
      = (.ok (), FS.writeFile
          (if fs1.pathExists (base ++ "/" ++ keymap) then fs1
           else fs1.mkdirs (base ++ "/" ++ keymap))
          (base ++ "/" ++ keymap ++ "/keymap.c") txt) := by
    unfold write_keymap_spec
    rw [hr]
  have hw2 : env.write_keymap (.vstr keyboard) (.vstr keymap) layers fs1
      = (.ok (), FS.writeFile
          (if fs1.pathExists (base ++ "/" ++ keymap) then fs1
           else fs1.mkdirs (base ++ "/" ++ keymap))
          (base ++ "/" ++ keymap ++ "/keymap.c") txt) := by
    rw [hw, hws]
  rw [hws] at hb
  have hcf : compile_firmware env keyboard keymap layout layers fs
      = (.done (storeDict o (dset (initResult keyboard keymap layout) "id" j)),
         FS.writeFile
           (if fs1.pathExists (base ++ "/" ++ keymap) then fs1
            else fs1.mkdirs (base ++ "/" ++ keymap))
           (base ++ "/" ++ keymap ++ "/keymap.c") txt) := by
    apply compile_firmware_of_fell
    rw [compile_try_job_ok _ _ _ _ _ _ _ hj]
    exact compile_try_rest_success _ _ _ _ _ _ _ _ _ _ _ _ hc hk h1 h2
      (dget_init_id_keyboard keyboard keymap layout j)
      (dget_init_id_keymap keyboard keymap layout j) hw2 hb
  rw [hcf]
  refine ⟨rfl, ?_, ?_⟩
  · show dget (storeDict o (dset (initResult keyboard keymap layout) "id" j)) "command"
        = some (.vlist ["make", "COLOR=false", keyboard ++ ":" ++ keymap])
    unfold storeDict
    rw [dget_dset_ne _ _ _ _ (by decide), dget_dset_ne _ _ _ _ (by decide),
      dget_dset_ne _ _ _ _ (by decide), dget_dset_ne _ _ _ _ (by decide),
      dget_dset_ne _ _ _ _ (by decide)]
    rfl
  · show lookupFile (FS.writeFile
        (if fs1.pathExists (base ++ "/" ++ keymap) then fs1
         else fs1.mkdirs (base ++ "/" ++ keymap))
        (base ++ "/" ++ keymap ++ "/keymap.c") txt).files
      (base ++ "/" ++ keymap ++ "/keymap.c") = some txt
    exact lookupFile_setFile_self _ _ _

/-- Witness for compile_firmware_success_build with a small custom template
and one layer. -/
theorem compile_firmware_success_build_witness :
    (compile_firmware envSuccess "kb" "km" "LAYOUT" [["KC_A"]] fsSuccess).1.isDone = true
    ∧ dget (compile_firmware envSuccess "kb" "km" "LAYOUT" [["KC_A"]] fsSuccess).1.record "command"
        = some (.vlist ["make", "COLOR=false", "kb" ++ ":" ++ "km"])
    ∧ lookupFile (compile_firmware envSuccess "kb" "km" "LAYOUT" [["KC_A"]] fsSuccess).2.files
        ("qmk_firmware/keyboards/kb/keymaps" ++ "/" ++ "km" ++ "/keymap.c")
      = some "A \t[0] = LAYOUT(KC_A) B" :=
  compile_firmware_success_build envSuccess "kb" "km" "LAYOUT"
    "qmk_firmware/keyboards/kb/keymaps" "A \t[0] = LAYOUT(KC_A) B" [["KC_A"]]
    fsSuccess fsSuccess (.vstr "7") ⟨0, "built", .vstr "BIN", "kb_km.hex"⟩
    rfl rfl rfl rfl rfl rfl rfl rfl
